import Mathlib

/-!
Verification of the Turkey Run simulation core against its specification.

The embedding below translates the simulation logic of the repository
(player jump/vertical physics, entity movement, collision evaluation,
spawn policy, restart effects) into executable Lean definitions over ℚ.
JavaScript numbers are modelled as rationals; every constant literal in
the source (50, 16, 0.05, 1.4, ...) appears here as the corresponding
rational.  `Math.random()` draws are passed in as explicit rational
parameters.  Rendering-only data (mesh geometry, colors, uuid ids,
audio calls) is omitted: it never feeds back into the simulation state.
-/

namespace TurkeyRun

/-- Physics constant from Player: `const GRAVITY = 50`. -/
def GRAVITY : ℚ := 50

/-- Physics constant from Player: `const JUMP_FORCE = 16`. -/
def JUMP_FORCE : ℚ := 16

/-- Player physics state: the mutable refs of the Player component
(`isJumping`, `velocityY`, `jumpsPerformed`, `spinRotation`) together
with the group's vertical position `position.y`, here `height`. -/
structure PlayerPhys where
  isJumping : Bool
  velocityY : ℚ
  height : ℚ
  jumpsPerformed : ℕ
  spinRotation : ℚ
deriving Repr, DecidableEq

/-- Maximum allowed jumps: `const maxJumps = hasDoubleJump ? 2 : 1`. -/
def maxJumps (hasDoubleJump : Bool) : ℕ :=
  if hasDoubleJump then 2 else 1

/-- Player `triggerJump`: if not jumping, start a jump (count 1, launch
velocity); else if below `maxJumps`, perform a mid-air jump (increment
count, re-apply launch velocity, reset spin); otherwise do nothing. -/
def triggerJump (hasDoubleJump : Bool) (p : PlayerPhys) : PlayerPhys :=
  if !p.isJumping then
    { p with isJumping := true, jumpsPerformed := 1, velocityY := JUMP_FORCE }
  else if p.jumpsPerformed < maxJumps hasDoubleJump then
    { p with jumpsPerformed := p.jumpsPerformed + 1, velocityY := JUMP_FORCE,
             spinRotation := 0 }
  else
    p

/-- Player `useFrame` vertical physics block, using the raw frame
`delta` (the Player component applies no clamp to it):
`position.y += velocityY * delta; velocityY -= GRAVITY * delta;` then
on `position.y <= 0`: clamp to ground and reset jump state; finally the
double-jump spin animation (`spinRotation -= delta * 15`, floored at
`-Math.PI * 2`, whose irrational bound is passed in as `twoPi`). -/
def playerPhysicsStep (twoPi : ℚ) (p : PlayerPhys) (delta : ℚ) : PlayerPhys :=
  if p.isJumping then
    let p1 : PlayerPhys :=
      { p with height := p.height + p.velocityY * delta,
               velocityY := p.velocityY - GRAVITY * delta }
    let p2 : PlayerPhys :=
      if p1.height ≤ 0 then
        { p1 with height := 0, isJumping := false, jumpsPerformed := 0,
                  velocityY := 0 }
      else p1
    if p2.jumpsPerformed = 2 then
      { p2 with spinRotation := max (p2.spinRotation - delta * 15) (-twoPi) }
    else p2
  else p

/-- Entity kinds, the `ObjectType` enumeration of the repository
(OBSTACLE hay bale, GEM pumpkin pie, LETTER, ALIEN scarecrow,
MISSILE pitchfork, SHOP_PORTAL). -/
inductive ObjectType where
  | OBSTACLE
  | GEM
  | LETTER
  | ALIEN
  | MISSILE
  | SHOP_PORTAL
deriving Repr, DecidableEq

/-- World entity (`GameObject`): kind, position `[x, y, z]` and flags.
The uuid `id` and the render `color`/`value` fields never feed back into
the simulation and are omitted. -/
structure GameObject where
  type : ObjectType
  posX : ℚ
  posY : ℚ
  posZ : ℚ
  active : Bool
  hasFired : Bool := false
  points : Option ℕ := none
  targetIndex : Option ℕ := none
deriving Repr, DecidableEq

/-- LevelManager constant: `const BASE_LETTER_INTERVAL = 150`. -/
def BASE_LETTER_INTERVAL : ℚ := 150

/-- LevelManager constant: `const MISSILE_SPEED = 20`. -/
def MISSILE_SPEED : ℚ := 20

/-- LevelManager `getLetterInterval`:
`BASE_LETTER_INTERVAL * Math.pow(1.5, Math.max(0, level - 1))`. -/
def getLetterInterval (level : ℤ) : ℚ :=
  BASE_LETTER_INTERVAL * (3 / 2 : ℚ) ^ (max 0 (level - 1)).toNat

/-- LevelManager frame clamp: `const safeDelta = Math.min(delta, 0.05)`. -/
def safeDelta (delta : ℚ) : ℚ := min delta (1 / 20)

/-- Per-object forward movement for one LevelManager tick:
`let moveAmount = dist` (with `dist = speed * safeDelta`), plus
`MISSILE_SPEED * safeDelta` for a MISSILE. -/
def moveAmount (speed delta : ℚ) (t : ObjectType) : ℚ :=
  let dist := speed * safeDelta delta
  if t = ObjectType.MISSILE then dist + MISSILE_SPEED * safeDelta delta else dist

/-- Entity advance: `obj.position[2] += moveAmount`. -/
def advanceObj (speed delta : ℚ) (o : GameObject) : GameObject :=
  { o with posZ := o.posZ + moveAmount speed delta o.type }

/-- Scarecrow fire trigger: an active, unfired ALIEN whose z has passed
-90 sets its `hasFired` flag and spawns a MISSILE at
`[obj.x, 1.0, obj.z + 2]`. -/
def alienFireStep (o : GameObject) : GameObject × List GameObject :=
  if o.type = ObjectType.ALIEN ∧ o.active = true ∧ o.hasFired = false then
    if o.posZ > -90 then
      ({ o with hasFired := true },
       [{ type := ObjectType.MISSILE, posX := o.posX, posY := 1,
          posZ := o.posZ + 2, active := true }])
    else (o, [])
  else (o, [])

/-- Outcome of evaluating one object against the player in one tick:
the store/event call the branch makes, if any. -/
inductive CollisionOutcome where
  | nothing
  | shopEntry
  | playerHit
  | gemCollect (points : ℕ)
  | letterCollect (idx : ℕ)
deriving Repr, DecidableEq

/-- Result of the per-object collision/prune evaluation. -/
structure CollideResult where
  outcome : CollisionOutcome
  obj : GameObject
  keep : Bool
deriving Repr, DecidableEq

/-- JavaScript `x || d` on an optional point value (`obj.points || 50`):
a missing or zero value falls back to the default. -/
def jsOrNat (x : Option ℕ) (d : ℕ) : ℕ :=
  match x with
  | some p => if p = 0 then d else p
  | none => d

/-- Store call made by the GEM/LETTER collect branch: `collectGem` with
`obj.points || 50` for a GEM, `collectLetter` for a LETTER carrying a
target index. -/
def collectOutcome (t : ObjectType) (pts ti : Option ℕ) : CollisionOutcome :=
  if t = ObjectType.GEM then CollisionOutcome.gemCollect (jsOrNat pts 50)
  else
    match t, ti with
    | ObjectType.LETTER, some i => CollisionOutcome.letterCollect i
    | _, _ => CollisionOutcome.nothing

/-- Kind-specific vertical band `(objBottom, objTop)` of the damage
branch: the default `[objY - 0.5, objY + 0.5]` overridden to `[0, 1.4]`
for an OBSTACLE (hay bale height) and `[0.5, 1.5]` for a MISSILE. -/
def damageBand (t : ObjectType) (objY : ℚ) : ℚ × ℚ :=
  ((if t = ObjectType.OBSTACLE then 0
    else if t = ObjectType.MISSILE then 1 / 2
    else objY - 1 / 2),
   (if t = ObjectType.OBSTACLE then 7 / 5
    else if t = ObjectType.MISSILE then 3 / 2
    else objY + 1 / 2))

/-- Lateral and vertical hit evaluation (the `dx < 0.9` block): damage
sources (OBSTACLE, ALIEN, MISSILE) compare the player band
`[player.y, player.y + 1.6]` against their kind band and produce the
`player-hit` dispatch; GEM/LETTER use `|objY - player.y| < 2.5` and
produce the collect call.  Either hit deactivates the object. -/
def hitCheck (px py : ℚ) (o : GameObject) : CollideResult :=
  if |o.posX - px| < 9 / 10 then
    if o.type = ObjectType.OBSTACLE ∨ o.type = ObjectType.ALIEN ∨
        o.type = ObjectType.MISSILE then
      if py < (damageBand o.type o.posY).2 ∧
          py + 8 / 5 > (damageBand o.type o.posY).1 then
        { outcome := CollisionOutcome.playerHit,
          obj := { o with active := false }, keep := true }
      else { outcome := CollisionOutcome.nothing, obj := o, keep := true }
    else
      if |o.posY - py| < 5 / 2 then
        { outcome := collectOutcome o.type o.points o.targetIndex,
          obj := { o with active := false }, keep := true }
      else { outcome := CollisionOutcome.nothing, obj := o, keep := true }
  else { outcome := CollisionOutcome.nothing, obj := o, keep := true }

/-- Collision evaluation for one active object: an active SHOP_PORTAL
uses the longitudinal-only proximity test `|z - player.z| < 2`
(deactivate and drop on success); any other object is evaluated by
`hitCheck` only while its z interval straddle
`prevZ < player.z + 2 ∧ z > player.z - 2` holds. -/
def collideActive (px py pz prevZ : ℚ) (o : GameObject) : CollideResult :=
  if o.type = ObjectType.SHOP_PORTAL then
    if |o.posZ - pz| < 2 then
      { outcome := CollisionOutcome.shopEntry,
        obj := { o with active := false }, keep := false }
    else { outcome := CollisionOutcome.nothing, obj := o, keep := true }
  else if prevZ < pz + 2 ∧ o.posZ > pz - 2 then
    hitCheck px py o
  else { outcome := CollisionOutcome.nothing, obj := o, keep := true }

/-- Collision evaluation and prune decision for one object, after its
movement this tick.  `prevZ` is the object's z before the movement; the
object `o` carries the moved z.  Only an active object is evaluated;
finally any object with `z > removeDistance` is dropped. -/
def collideObject (removeDistance px py pz prevZ : ℚ) (o : GameObject) :
    CollideResult :=
  let r :=
    if o.active = true then collideActive px py pz prevZ o
    else { outcome := CollisionOutcome.nothing, obj := o, keep := true }
  if o.posZ > removeDistance then { r with keep := false } else r

/-- One full LevelManager tick for a single object: movement then
collision/prune evaluation against the player position (the scarecrow
fire block, which sits between the two and touches only `hasFired` and
the spawn list, is `alienFireStep`). -/
def objectTick (removeDistance speed delta px py pz : ℚ) (o : GameObject) :
    CollideResult :=
  collideObject removeDistance px py pz o.posZ (advanceObj speed delta o)

/-- Shop-entry events produced by repeatedly ticking one stored object,
with the per-tick inputs (speed, delta, player x, y, z) given as a list;
a tick whose result has `keep = false` removes the object from the
store (state `none`). -/
def shopEvents (removeDistance : ℚ) :
    Option GameObject → List (ℚ × ℚ × ℚ × ℚ × ℚ) → ℕ
  | _, [] => 0
  | none, _ :: rest => shopEvents removeDistance none rest
  | some o, (speed, delta, px, py, pz) :: rest =>
      let r := objectTick removeDistance speed delta px py pz o
      (if r.outcome = CollisionOutcome.shopEntry then 1 else 0) +
        shopEvents removeDistance (if r.keep then some r.obj else none) rest

/-- Game status enumeration (`GameStatus` in types). -/
inductive GStatus where
  | MENU
  | PLAYING
  | SHOP
  | GAME_OVER
  | VICTORY
deriving Repr, DecidableEq

/-- Progression state held by the store (`useStore`): score, lives,
max lives, level, collected letter indices, shown distance, status and
upgrade flags.  The store module itself is imported from `../../store`
and is not among the provided sources; its actions used below are
modelled from the spec where so marked. -/
structure StoreState where
  score : ℕ
  lives : ℕ
  maxLives : ℕ
  level : ℤ
  collectedLetters : List ℕ
  distance : ℤ
  status : GStatus
  hasDoubleJump : Bool
  hasImmortality : Bool
deriving Repr, DecidableEq

/-- Modelled from the spec: the store action `takeDamage` (the store
module is not among the provided sources).  Spec, Progression
Controller: "Damage outcome: lives -= 1; if lives reach 0, transition
to GameOver". -/
def takeDamage (s : StoreState) : StoreState :=
  let lives := s.lives - 1
  if lives = 0 then { s with lives := lives, status := GStatus.GAME_OVER }
  else { s with lives := lives }

/-- Player damage-invulnerability refs: `isInvincible` and
`lastDamageTime`. -/
structure InvulnState where
  isInvincible : Bool
  lastDamageTime : ℚ
deriving Repr, DecidableEq

/-- Player `checkHit` handler for the `player-hit` event: while the
damage-invulnerability flag or the immortality skill is active the hit
is ignored; otherwise it applies `takeDamage` and opens a new
invulnerability window stamped with the current time. -/
def checkHit (isImmortalityActive : Bool) (now : ℚ) (inv : InvulnState)
    (s : StoreState) : InvulnState × StoreState :=
  if inv.isInvincible = true ∨ isImmortalityActive = true then (inv, s)
  else ({ isInvincible := true, lastDamageTime := now }, takeDamage s)

/-- LevelManager `getRandomLane`: with `max = Math.floor(laneCount / 2)`,
returns `Math.floor(r * (max * 2 + 1)) - max` for the random draw `r`. -/
def getRandomLane (laneCount : ℕ) (r : ℚ) : ℤ :=
  let m : ℤ := (laneCount : ℤ) / 2
  ⌊r * (m * 2 + 1 : ℤ)⌋ - m

/-- Forward-most static z used by the spawn gate: the minimum z over
non-MISSILE objects, or -20 when there are none. -/
def furthestZ (objs : List GameObject) : ℚ :=
  let staticObjs := objs.filter (fun o => o.type ≠ ObjectType.MISSILE)
  match staticObjs.map (fun o => o.posZ) with
  | [] => -20
  | z :: zs => zs.foldl min z

/-- The `Math.random()` draws consumed by one spawn opportunity, passed
in explicitly (in source order of possible consumption). -/
structure SpawnRandom where
  rLane : ℚ
  rIdx : ℚ
  rGate : ℚ
  rObstacle : ℚ
  rAlien : ℚ
  rLane2 : ℚ
  rBonus : ℚ
deriving Repr, DecidableEq

/-- LevelManager spawn policy for one tick, operating on the kept
object list.  `laneWidth`, `spawnDistance` stand for the configuration
constants LANE_WIDTH and SPAWN_DISTANCE (imported from types, not among
the provided sources); `wordLen` is the length of TARGET_WORD (from the
store module).  When the spawn gate `furthestZ > -SPAWN_DISTANCE` is
open: if the letter threshold has been crossed, spawn a LETTER at a
uniformly chosen uncollected index and advance the threshold by
`getLetterInterval level`, falling back to a 50-point GEM (threshold
unchanged) when every index is collected; otherwise with probability
0.9 spawn an OBSTACLE (sometimes an ALIEN from level 2, sometimes with
a 100-point bonus GEM above) or a lone 50-point GEM.  Returns the new
object list and the new letter threshold. -/
def spawnStep (laneWidth spawnDistance : ℚ) (wordLen : ℕ)
    (collected : List ℕ) (level : ℤ) (laneCount : ℕ)
    (speed distanceTraveled nextLetterDistance : ℚ)
    (objs : List GameObject) (rnd : SpawnRandom) : List GameObject × ℚ :=
  let fz := furthestZ objs
  if fz > -spawnDistance then
    let minGap := 12 + speed * (2 / 5)
    let spawnZ := min (fz - minGap) (-spawnDistance)
    let isLetterDue := distanceTraveled ≥ nextLetterDistance
    if isLetterDue then
      let lane := getRandomLane laneCount rnd.rLane
      let availableIndices :=
        (List.range wordLen).filter (fun i => !(collected.contains i))
      if 0 < availableIndices.length then
        let chosenIndex :=
          availableIndices.getD (⌊rnd.rIdx * availableIndices.length⌋).toNat 0
        (objs ++ [{ type := ObjectType.LETTER, posX := lane * laneWidth,
                    posY := 1, posZ := spawnZ, active := true,
                    targetIndex := some chosenIndex }],
         nextLetterDistance + getLetterInterval level)
      else
        (objs ++ [{ type := ObjectType.GEM, posX := lane * laneWidth,
                    posY := 6 / 5, posZ := spawnZ, active := true,
                    points := some 50 }],
         nextLetterDistance)
    else if rnd.rGate > 1 / 10 then
      let isObstacle := rnd.rObstacle > 1 / 5
      if isObstacle then
        let spawnAlien := level ≥ 2 ∧ rnd.rAlien < 1 / 5
        if spawnAlien then
          (objs ++ [{ type := ObjectType.ALIEN,
                      posX := getRandomLane laneCount rnd.rLane2 * laneWidth,
                      posY := 0, posZ := spawnZ, active := true,
                      hasFired := false }],
           nextLetterDistance)
        else
          let lane := getRandomLane laneCount rnd.rLane2
          let bonus : List GameObject :=
            if rnd.rBonus < 3 / 10 then
              [{ type := ObjectType.GEM, posX := lane * laneWidth,
                 posY := 12 / 5, posZ := spawnZ, active := true,
                 points := some 100 }]
            else []
          (objs ++ [{ type := ObjectType.OBSTACLE, posX := lane * laneWidth,
                      posY := 7 / 10, posZ := spawnZ, active := true }] ++
             bonus,
           nextLetterDistance)
      else
        let lane := getRandomLane laneCount rnd.rLane2
        (objs ++ [{ type := ObjectType.GEM, posX := lane * laneWidth,
                    posY := 6 / 5, posZ := spawnZ, active := true,
                    points := some 50 }],
         nextLetterDistance)
    else (objs, nextLetterDistance)
  else (objs, nextLetterDistance)

/-- LevelManager simulation refs: object list, traveled distance and
the next-letter-spawn threshold. -/
structure SimState where
  objects : List GameObject
  distanceTraveled : ℚ
  nextLetterDistance : ℚ
deriving Repr, DecidableEq

/-- LevelManager status/level effect: on Menu entry, restart from
GameOver, or restart from Victory: clear all objects, zero the traveled
distance and reset the letter threshold to `getLetterInterval 1`; on a
level-up past level 1 while Playing: cull objects with z ≤ -80, inject
one SHOP_PORTAL at z = -100 and recompute the threshold as
`distanceTraveled - SPAWN_DISTANCE + getLetterInterval level`; on
GameOver/Victory report `Math.floor(distanceTraveled)` via
`setDistance` (returned as the optional second component). -/
def levelEffect (spawnDistance : ℚ) (status prevStatus : GStatus)
    (level prevLevel : ℤ) (sim : SimState) : SimState × Option ℤ :=
  let isRestart := status = GStatus.PLAYING ∧ prevStatus = GStatus.GAME_OVER
  let isMenuReset := status = GStatus.MENU
  let isLevelUp := level ≠ prevLevel ∧ status = GStatus.PLAYING
  let isVictoryReset := status = GStatus.PLAYING ∧ prevStatus = GStatus.VICTORY
  if isMenuReset ∨ isRestart ∨ isVictoryReset then
    ({ sim with objects := [], distanceTraveled := 0,
                nextLetterDistance := getLetterInterval 1 }, none)
  else if isLevelUp ∧ level > 1 then
    ({ sim with
        objects := sim.objects.filter (fun o => o.posZ > -80) ++
          [{ type := ObjectType.SHOP_PORTAL, posX := 0, posY := 0,
             posZ := -100, active := true }],
        nextLetterDistance :=
          sim.distanceTraveled - spawnDistance + getLetterInterval level },
     none)
  else if status = GStatus.GAME_OVER ∨ status = GStatus.VICTORY then
    (sim, some ⌊sim.distanceTraveled⌋)
  else (sim, none)

/-- Modelled from the spec: the store action `restartGame` (the store
module is not among the provided sources).  Spec: restart "resets all
of the above to initial values" — score 0, lives at base maxLives,
level 1, empty collected-letters, zero distance — and "re-enters
Playing directly".  `baseMax` is the base maxLives configuration
value. -/
def restartGame (baseMax : ℕ) (s : StoreState) : StoreState :=
  { score := 0, lives := baseMax, maxLives := baseMax, level := 1,
    collectedLetters := [], distance := 0, status := GStatus.PLAYING,
    hasDoubleJump := s.hasDoubleJump, hasImmortality := s.hasImmortality }

/-- A full restart: the store's `restartGame` (spec-modelled) followed
by the LevelManager effect reacting to the status change from the
prior terminal screen into PLAYING. -/
def fullRestart (spawnDistance : ℚ) (baseMax : ℕ) (prevStatus : GStatus)
    (prevLevel : ℤ) (s : StoreState) (sim : SimState) :
    StoreState × SimState :=
  let s' := restartGame baseMax s
  (s', (levelEffect spawnDistance s'.status prevStatus s'.level prevLevel sim).1)

/-- Formalization of the delta-clamping claim for the player's vertical
physics: some fixed clamp bound c in the 50–100 ms range exists such
that stepping the player physics with any frame delta is the same as
stepping with the delta clamped to c. -/
def playerDeltaClamped : Prop :=
  ∃ c : ℚ, 1 / 20 ≤ c ∧ c ≤ 1 / 10 ∧
    ∀ (twoPi : ℚ) (p : PlayerPhys) (d : ℚ),
      playerPhysicsStep twoPi p d = playerPhysicsStep twoPi p (min d c)

/-! ## Theorems -/

/-- C3: a Jump command while grounded (jump count 0) sets jump count to
1 and vertical velocity to the fixed launch speed; while airborne with
jump count below the allowed maximum (1, or 2 with double-jump) it
increments the count and re-applies the launch velocity; while airborne
with jump count already at the allowed maximum it leaves the player
physics state (height, velocity, jump count, spin) unchanged. -/
theorem claim_C3_jump (hasDJ : Bool) (p : PlayerPhys) :
    (p.isJumping = false → p.jumpsPerformed = 0 →
      triggerJump hasDJ p =
        { p with isJumping := true, jumpsPerformed := 1,
                 velocityY := JUMP_FORCE }) ∧
    (p.isJumping = true → p.jumpsPerformed < maxJumps hasDJ →
      triggerJump hasDJ p =
        { p with jumpsPerformed := p.jumpsPerformed + 1,
                 velocityY := JUMP_FORCE, spinRotation := 0 }) ∧
    (p.isJumping = true → maxJumps hasDJ ≤ p.jumpsPerformed →
      triggerJump hasDJ p = p) := by
  refine ⟨fun h1 _ => ?_, fun h1 h2 => ?_, fun h1 h2 => ?_⟩
  · simp [triggerJump, h1]
  · simp [triggerJump, h1, h2]
  · simp [triggerJump, h1, not_lt.mpr h2]

/-- Witness for C3 at concrete states: grounded start jump, a second
jump with double-jump unlocked, and the no-op at the maximum. -/
theorem claim_C3_jump_witness :
    triggerJump false ⟨false, 0, 0, 0, 0⟩ = ⟨true, JUMP_FORCE, 0, 1, 0⟩ ∧
    triggerJump true ⟨true, -2, 1, 1, 3⟩ = ⟨true, JUMP_FORCE, 1, 2, 0⟩ ∧
    triggerJump false ⟨true, -2, 1, 1, 3⟩ = ⟨true, -2, 1, 1, 3⟩ :=
  ⟨(claim_C3_jump false ⟨false, 0, 0, 0, 0⟩).1 rfl rfl,
   (claim_C3_jump true ⟨true, -2, 1, 1, 3⟩).2.1 rfl (by decide),
   (claim_C3_jump false ⟨true, -2, 1, 1, 3⟩).2.2 rfl (by decide)⟩

/-- C7: each tick advances an object's forward z by exactly the frame's
travel distance `speed * safeDelta` plus the MISSILE-specific extra
`MISSILE_SPEED * safeDelta`, and z is non-decreasing whenever speed and
delta are non-negative. -/
theorem claim_C7_advance (speed delta : ℚ) (o : GameObject) :
    (advanceObj speed delta o).posZ =
      o.posZ + speed * safeDelta delta +
        (if o.type = ObjectType.MISSILE then MISSILE_SPEED * safeDelta delta
         else 0) ∧
    (0 ≤ speed → 0 ≤ delta → o.posZ ≤ (advanceObj speed delta o).posZ) := by
  constructor
  · simp only [advanceObj, moveAmount]
    split <;> ring
  · intro hs hd
    have h1 : 0 ≤ safeDelta delta := le_min hd (by norm_num)
    have h2 : 0 ≤ speed * safeDelta delta := mul_nonneg hs h1
    have h3 : 0 ≤ MISSILE_SPEED * safeDelta delta :=
      mul_nonneg (by norm_num [MISSILE_SPEED]) h1
    simp only [advanceObj, moveAmount]
    split <;> linarith

/-- Witness for C7: a MISSILE at z = -30 with speed 10 and delta 0.1
(clamped to 0.05) moves to -30 + 10·0.05 + 20·0.05 = -28.5. -/
theorem claim_C7_advance_witness :
    (advanceObj 10 (1 / 10)
        ⟨ObjectType.MISSILE, 0, 1, -30, true, false, none, none⟩).posZ =
      -30 + 10 * safeDelta (1 / 10) +
        MISSILE_SPEED * safeDelta (1 / 10) ∧
    (-30 : ℚ) ≤ (advanceObj 10 (1 / 10)
        ⟨ObjectType.MISSILE, 0, 1, -30, true, false, none, none⟩).posZ := by
  have h := claim_C7_advance 10 (1 / 10)
    ⟨ObjectType.MISSILE, 0, 1, -30, true, false, none, none⟩
  exact ⟨by rw [h.1]; norm_num, h.2 (by norm_num) (by norm_num)⟩

/-- C2: for every level L ≥ 1 the letter interval equals
`BASE_LETTER_INTERVAL * 1.5 ^ (L - 1)`, and a Letter spawn advances the
next-letter threshold by exactly that interval for the current level. -/
theorem claim_C2_letter_interval (L : ℤ) (hL : 1 ≤ L)
    (laneWidth spawnDistance : ℚ) (wordLen : ℕ) (collected : List ℕ)
    (laneCount : ℕ) (speed distanceTraveled nextLetterDistance : ℚ)
    (objs : List GameObject) (rnd : SpawnRandom)
    (hgate : furthestZ objs > -spawnDistance)
    (hdue : distanceTraveled ≥ nextLetterDistance)
    (havail : 0 < ((List.range wordLen).filter
        (fun i => !(collected.contains i))).length) :
    getLetterInterval L =
      BASE_LETTER_INTERVAL * (3 / 2 : ℚ) ^ (L - 1).toNat ∧
    (spawnStep laneWidth spawnDistance wordLen collected L laneCount speed
        distanceTraveled nextLetterDistance objs rnd).2 =
      nextLetterDistance + getLetterInterval L := by
  constructor
  · unfold getLetterInterval
    congr 2
    omega
  · have havail' : 0 < ((List.range wordLen).filter
        (fun i => !decide (i ∈ collected))).length := by simpa using havail
    simp [spawnStep, hgate, hdue, havail']

/-- Witness for C2 at level 2 with word length 2 and nothing collected:
the interval is 225 and the threshold advances from 150 to 375. -/
theorem claim_C2_letter_interval_witness :
    getLetterInterval 2 =
      BASE_LETTER_INTERVAL * (3 / 2 : ℚ) ^ ((2 : ℤ) - 1).toNat ∧
    (spawnStep 2 30 2 [] 2 5 10 150 150 [] ⟨0, 0, 0, 0, 0, 0, 0⟩).2 =
      150 + getLetterInterval 2 := by
  have h := claim_C2_letter_interval 2 (by norm_num) 2 30 2 [] 5 10 150 150 []
    ⟨0, 0, 0, 0, 0, 0, 0⟩ (by norm_num [furthestZ]) (by norm_num) (by decide)
  exact h

/-- C8: a full restart (the store's restartGame followed by the
LevelManager reset effect on re-entering PLAYING from GameOver or
Victory) resets score to 0, lives to base maxLives, level to 1, the
collected-letters set to empty, distance to 0, clears all entities and
resets the letter threshold to `getLetterInterval 1`, regardless of the
prior state. -/
theorem claim_C8_restart (spawnDistance : ℚ) (baseMax : ℕ)
    (prevStatus : GStatus) (prevLevel : ℤ) (s : StoreState) (sim : SimState)
    (hprev : prevStatus = GStatus.GAME_OVER ∨ prevStatus = GStatus.VICTORY) :
    (fullRestart spawnDistance baseMax prevStatus prevLevel s sim).1.score = 0 ∧
    (fullRestart spawnDistance baseMax prevStatus prevLevel s sim).1.lives =
      baseMax ∧
    (fullRestart spawnDistance baseMax prevStatus prevLevel s sim).1.level = 1 ∧
    (fullRestart spawnDistance baseMax prevStatus prevLevel
        s sim).1.collectedLetters = [] ∧
    (fullRestart spawnDistance baseMax prevStatus prevLevel s sim).1.distance =
      0 ∧
    (fullRestart spawnDistance baseMax prevStatus prevLevel
        s sim).2.objects = [] ∧
    (fullRestart spawnDistance baseMax prevStatus prevLevel
        s sim).2.distanceTraveled = 0 ∧
    (fullRestart spawnDistance baseMax prevStatus prevLevel
        s sim).2.nextLetterDistance = getLetterInterval 1 := by
  rcases hprev with h | h <;> subst h <;>
    simp [fullRestart, restartGame, levelEffect]

/-- Witness for C8 from a mid-run state on the GameOver screen. -/
theorem claim_C8_restart_witness :
    (fullRestart 30 3 GStatus.GAME_OVER 2
        ⟨940, 0, 4, 2, [0, 2], 512, GStatus.GAME_OVER, true, false⟩
        ⟨[⟨ObjectType.OBSTACLE, 0, 7 / 10, -40, true, false, none, none⟩],
         512, 375⟩).1.score = 0 ∧
    (fullRestart 30 3 GStatus.GAME_OVER 2
        ⟨940, 0, 4, 2, [0, 2], 512, GStatus.GAME_OVER, true, false⟩
        ⟨[⟨ObjectType.OBSTACLE, 0, 7 / 10, -40, true, false, none, none⟩],
         512, 375⟩).1.lives = 3 ∧
    (fullRestart 30 3 GStatus.GAME_OVER 2
        ⟨940, 0, 4, 2, [0, 2], 512, GStatus.GAME_OVER, true, false⟩
        ⟨[⟨ObjectType.OBSTACLE, 0, 7 / 10, -40, true, false, none, none⟩],
         512, 375⟩).2.objects = [] := by
  have h := claim_C8_restart 30 3 GStatus.GAME_OVER 2
    ⟨940, 0, 4, 2, [0, 2], 512, GStatus.GAME_OVER, true, false⟩
    ⟨[⟨ObjectType.OBSTACLE, 0, 7 / 10, -40, true, false, none, none⟩],
     512, 375⟩ (Or.inl rfl)
  exact ⟨h.1, h.2.1, h.2.2.2.2.2.1⟩

/-- C4 counterexample: the claim states that while airborne the step
computes `velocity -= GRAVITY * dt` first and then
`height += velocity * dt` with the updated velocity.  At the airborne
state (v = 16, h = 1) with dt = 1/10 the code yields height
1 + 16·(1/10) = 13/5, whereas the claimed order would yield
1 + (16 - 50·(1/10))·(1/10) = 21/10; both are positive (no grounding
under either reading) and they differ. -/
theorem claim_C4_counterexample :
    (playerPhysicsStep 7 ⟨true, 16, 1, 1, 0⟩ (1 / 10)).height = 13 / 5 ∧
    (1 : ℚ) + (16 - GRAVITY * (1 / 10)) * (1 / 10) = 21 / 10 ∧
    (13 / 5 : ℚ) ≠ 21 / 10 ∧ (0 : ℚ) < 21 / 10 := by
  refine ⟨?_, by norm_num [GRAVITY], by norm_num, by norm_num⟩
  norm_num [playerPhysicsStep, GRAVITY]

/-- C4 amended: each physics step while airborne updates height then
velocity, as `height += velocity * dt; velocity -= GRAVITY * dt` (the
height integration uses the pre-step velocity); the sole grounding
transition is: when the updated height is ≤ 0 while airborne, height is
clamped to 0, vertical velocity is set to 0 and jump count is reset to
0; a step while grounded changes nothing; consequently the invariant
"vertical velocity is zero while grounded" is preserved by every
step. -/
theorem claim_C4_integration (twoPi : ℚ) (p : PlayerPhys) (d : ℚ) :
    (p.isJumping = true → 0 < p.height + p.velocityY * d →
      (playerPhysicsStep twoPi p d).height = p.height + p.velocityY * d ∧
      (playerPhysicsStep twoPi p d).velocityY = p.velocityY - GRAVITY * d ∧
      (playerPhysicsStep twoPi p d).isJumping = true ∧
      (playerPhysicsStep twoPi p d).jumpsPerformed = p.jumpsPerformed) ∧
    (p.isJumping = true → p.height + p.velocityY * d ≤ 0 →
      playerPhysicsStep twoPi p d =
        { p with height := 0, velocityY := 0, isJumping := false,
                 jumpsPerformed := 0 }) ∧
    (p.isJumping = false → playerPhysicsStep twoPi p d = p) ∧
    ((p.isJumping = false → p.velocityY = 0) →
      (playerPhysicsStep twoPi p d).isJumping = false →
      (playerPhysicsStep twoPi p d).velocityY = 0) := by
  refine ⟨fun h1 h2 => ?_, fun h1 h2 => ?_, fun h1 => ?_, fun hinv h2 => ?_⟩
  · have hno : ¬(p.height + p.velocityY * d ≤ 0) := not_le.mpr h2
    simp [playerPhysicsStep, h1, hno]
    split <;> simp
  · simp [playerPhysicsStep, h1, h2]
  · simp [playerPhysicsStep, h1]
  · by_cases h1 : p.isJumping = true
    · by_cases hg : p.height + p.velocityY * d ≤ 0
      · simp [playerPhysicsStep, h1, hg]
      · have hstay : (playerPhysicsStep twoPi p d).isJumping = true := by
          simp [playerPhysicsStep, h1, hg]
          split <;> simp
        rw [hstay] at h2
        exact absurd h2 (by simp)
    · have hj : p.isJumping = false := by
        cases hb : p.isJumping
        · rfl
        · exact absurd hb h1
      simp [playerPhysicsStep, hj]
      exact hinv hj

/-- Witness for C4 at concrete states: an airborne step with no
landing, and a landing step that clamps height, zeroes velocity and
resets the jump count. -/
theorem claim_C4_integration_witness :
    (playerPhysicsStep 7 ⟨true, 16, 1, 1, 0⟩ (1 / 10)).height =
      1 + 16 * (1 / 10) ∧
    (playerPhysicsStep 7 ⟨true, 16, 1, 1, 0⟩ (1 / 10)).velocityY =
      16 - GRAVITY * (1 / 10) ∧
    playerPhysicsStep 7 ⟨true, -20, 1, 2, -1⟩ 1 = ⟨false, 0, 0, 0, -1⟩ := by
  have h1 := (claim_C4_integration 7 ⟨true, 16, 1, 1, 0⟩ (1 / 10)).1 rfl
    (by norm_num)
  have h2 := (claim_C4_integration 7 ⟨true, -20, 1, 2, -1⟩ 1).2.1 rfl
    (by norm_num)
  exact ⟨h1.1, h1.2.1, h2⟩

/-- C9 counterexample: the player vertical physics integrates with the
raw frame delta, so no fixed clamp bound in the 50–100 ms range can
describe it: at an airborne state with velocity 16 and delta 0.2 the
height advances by 16·0.2, which no clamped delta ≤ 0.1 reproduces. -/
theorem claim_C9_counterexample : ¬ playerDeltaClamped := by
  rintro ⟨c, hc1, hc2, h⟩
  have h' := h 7 ⟨true, 16, 0, 1, 0⟩ (1 / 5)
  have hmin : min (1 / 5 : ℚ) c = c := min_eq_right (by linarith)
  rw [hmin] at h'
  have hh := congrArg PlayerPhys.height h'
  have hcpos : ¬((16 : ℚ) * c ≤ 0) := by push_neg; nlinarith
  have hlpos : ¬((16 : ℚ) * 5⁻¹ ≤ 0) := by norm_num
  simp [playerPhysicsStep, hcpos, hlpos] at hh
  nlinarith

/-- C9 amended: the LevelManager simulation tick (entity movement,
collision, spawn, prune) clamps the frame delta to at most 0.05 s
before integration (`safeDelta`), and entity movement is invariant
under pre-clamping; the player vertical physics however integrates with
the raw frame delta. -/
theorem claim_C9_clamp (speed delta : ℚ) (o : GameObject) (twoPi : ℚ)
    (p : PlayerPhys) (hj : p.isJumping = true)
    (hnog : 0 < p.height + p.velocityY * delta) :
    safeDelta delta ≤ 1 / 20 ∧ safeDelta delta ≤ delta ∧
    advanceObj speed delta o = advanceObj speed (safeDelta delta) o ∧
    (playerPhysicsStep twoPi p delta).height =
      p.height + p.velocityY * delta := by
  refine ⟨min_le_right _ _, min_le_left _ _, ?_, ?_⟩
  · have : safeDelta (safeDelta delta) = safeDelta delta := by
      simp [safeDelta, min_assoc]
    simp [advanceObj, moveAmount, this]
  · have hno : ¬(p.height + p.velocityY * delta ≤ 0) := not_le.mpr hnog
    simp [playerPhysicsStep, hj, hno]
    split <;> simp

/-- Witness for C9 amended at delta = 0.2: the simulation tick uses
0.05 while the player physics integrates the full 0.2. -/
theorem claim_C9_clamp_witness :
    safeDelta (1 / 5) ≤ 1 / 20 ∧ safeDelta (1 / 5) ≤ 1 / 5 ∧
    advanceObj 10 (1 / 5) ⟨ObjectType.OBSTACLE, 0, 7 / 10, -30, true,
        false, none, none⟩ =
      advanceObj 10 (safeDelta (1 / 5)) ⟨ObjectType.OBSTACLE, 0, 7 / 10,
        -30, true, false, none, none⟩ ∧
    (playerPhysicsStep 7 ⟨true, 16, 0, 1, 0⟩ (1 / 5)).height =
      0 + 16 * (1 / 5) :=
  claim_C9_clamp 10 (1 / 5)
    ⟨ObjectType.OBSTACLE, 0, 7 / 10, -30, true, false, none, none⟩ 7
    ⟨true, 16, 0, 1, 0⟩ rfl (by norm_num)

/-- Movement does not change an object's kind. -/
theorem advance_type (speed delta : ℚ) (o : GameObject) :
    (advanceObj speed delta o).type = o.type := rfl

/-- Movement does not change an object's active flag. -/
theorem advance_active (speed delta : ℚ) (o : GameObject) :
    (advanceObj speed delta o).active = o.active := rfl

/-- Movement does not change an object's lateral position. -/
theorem advance_posX (speed delta : ℚ) (o : GameObject) :
    (advanceObj speed delta o).posX = o.posX := rfl

/-- Movement does not change an object's height. -/
theorem advance_posY (speed delta : ℚ) (o : GameObject) :
    (advanceObj speed delta o).posY = o.posY := rfl

/-- The GEM/LETTER collect branch never produces a shop-entry
outcome. -/
theorem collectOutcome_ne_shopEntry (t : ObjectType) (pts ti : Option ℕ) :
    collectOutcome t pts ti ≠ CollisionOutcome.shopEntry := by
  cases t <;> cases ti <;> simp [collectOutcome]

/-- The lateral/vertical hit block never produces a shop-entry
outcome. -/
theorem hitCheck_ne_shopEntry (px py : ℚ) (o : GameObject) :
    (hitCheck px py o).outcome ≠ CollisionOutcome.shopEntry := by
  simp only [hitCheck]
  split_ifs <;> simp [collectOutcome_ne_shopEntry]

/-- A hit in the lateral/vertical block deactivates the object. -/
theorem hitCheck_deactivates (px py : ℚ) (o : GameObject)
    (h : (hitCheck px py o).outcome ≠ CollisionOutcome.nothing) :
    (hitCheck px py o).obj.active = false := by
  revert h
  simp only [hitCheck]
  split_ifs <;> simp

/-- The lateral/vertical hit block never drops the object itself. -/
theorem hitCheck_keep (px py : ℚ) (o : GameObject) :
    (hitCheck px py o).keep = true := by
  simp only [hitCheck]
  split_ifs <;> rfl

/-- A non-trivial outcome of the active-object evaluation deactivates
the object. -/
theorem collideActive_deactivates (px py pz prevZ : ℚ) (o : GameObject)
    (h : (collideActive px py pz prevZ o).outcome ≠
      CollisionOutcome.nothing) :
    (collideActive px py pz prevZ o).obj.active = false := by
  revert h
  simp only [collideActive]
  split_ifs <;> first
    | exact fun h => hitCheck_deactivates px py o h
    | simp

/-- A shop-entry outcome of the active-object evaluation drops the
portal. -/
theorem collideActive_shopEntry_keep (px py pz prevZ : ℚ) (o : GameObject)
    (h : (collideActive px py pz prevZ o).outcome =
      CollisionOutcome.shopEntry) :
    (collideActive px py pz prevZ o).keep = false := by
  revert h
  simp only [collideActive]
  split_ifs <;> first
    | exact fun h => absurd h (hitCheck_ne_shopEntry px py o)
    | simp

/-- Any collision outcome other than `nothing` deactivates the
object. -/
theorem tick_outcome_deactivates (rd speed delta px py pz : ℚ)
    (o : GameObject)
    (h : (objectTick rd speed delta px py pz o).outcome ≠
      CollisionOutcome.nothing) :
    (objectTick rd speed delta px py pz o).obj.active = false := by
  revert h
  simp only [objectTick, collideObject]
  split <;> split <;>
    first
      | exact fun h => collideActive_deactivates px py pz _ _ h
      | simp

/-- A `shopEntry` outcome always removes the object from the store. -/
theorem tick_shopEntry_removes (rd speed delta px py pz : ℚ)
    (o : GameObject)
    (h : (objectTick rd speed delta px py pz o).outcome =
      CollisionOutcome.shopEntry) :
    (objectTick rd speed delta px py pz o).keep = false := by
  revert h
  simp only [objectTick, collideObject]
  split <;> split <;>
    first
      | intro _; rfl
      | exact fun h => collideActive_shopEntry_keep px py pz _ _ h
      | simp

/-- An inactive object yields no outcome and stays inactive. -/
theorem tick_inactive (rd speed delta px py pz : ℚ) (o : GameObject)
    (h : o.active = false) :
    (objectTick rd speed delta px py pz o).outcome =
      CollisionOutcome.nothing ∧
    (objectTick rd speed delta px py pz o).obj.active = false := by
  have h' : (advanceObj speed delta o).active = false := h
  simp only [objectTick, collideObject, h']
  refine ⟨?_, ?_⟩ <;> split <;> simp [h']

/-- An emptied store slot emits no further shop events. -/
theorem shopEvents_none (rd : ℚ) :
    ∀ l : List (ℚ × ℚ × ℚ × ℚ × ℚ), shopEvents rd none l = 0
  | [] => rfl
  | _ :: rest => by
      simp only [shopEvents]
      exact shopEvents_none rd rest

/-- Over any input trace, a stored object emits at most one shop-entry
event: emitting one removes it. -/
theorem shopEvents_le_one (rd : ℚ) (l : List (ℚ × ℚ × ℚ × ℚ × ℚ)) :
    ∀ o : GameObject, shopEvents rd (some o) l ≤ 1 := by
  induction l with
  | nil => intro o; simp [shopEvents]
  | cons a rest ih =>
      intro o
      obtain ⟨speed, delta, px, py, pz⟩ := a
      simp only [shopEvents]
      by_cases h : (objectTick rd speed delta px py pz o).outcome =
          CollisionOutcome.shopEntry
      · have hk := tick_shopEntry_removes rd speed delta px py pz o h
        simp [h, hk, shopEvents_none]
      · simp only [if_neg h, Nat.zero_add]
        split
        · exact ih _
        · simp [shopEvents_none]

/-- A deactivated stored object never emits a shop-entry event,
whatever the trace. -/
theorem shopEvents_inactive (rd : ℚ) (l : List (ℚ × ℚ × ℚ × ℚ × ℚ)) :
    ∀ o : GameObject, o.active = false → shopEvents rd (some o) l = 0 := by
  induction l with
  | nil => intro o _; simp [shopEvents]
  | cons a rest ih =>
      intro o h
      obtain ⟨speed, delta, px, py, pz⟩ := a
      have ht := tick_inactive rd speed delta px py pz o h
      have hne : ¬(CollisionOutcome.nothing = CollisionOutcome.shopEntry) := by
        simp
      simp only [shopEvents, ht.1, if_neg hne, Nat.zero_add]
      split
      · exact ih _ ht.2
      · exact shopEvents_none rd rest

/-- Deactivation condition of the lateral/vertical hit block for an
active object: lateral overlap and the kind-specific vertical test. -/
theorem hitCheck_active_iff (px py : ℚ) (o : GameObject)
    (hact : o.active = true) :
    ((hitCheck px py o).obj.active = false ↔
      (|o.posX - px| < 9 / 10 ∧
       (if o.type = ObjectType.OBSTACLE ∨ o.type = ObjectType.ALIEN ∨
            o.type = ObjectType.MISSILE then
          py < (damageBand o.type o.posY).2 ∧
            py + 8 / 5 > (damageBand o.type o.posY).1
        else |o.posY - py| < 5 / 2))) := by
  simp only [hitCheck]
  split_ifs <;> simp_all

/-- The damage-branch band test spelled out per kind. -/
theorem vertical_band_cases (t : ObjectType) (y py : ℚ) :
    (if t = ObjectType.OBSTACLE ∨ t = ObjectType.ALIEN ∨
        t = ObjectType.MISSILE then
       py < (damageBand t y).2 ∧ py + 8 / 5 > (damageBand t y).1
     else |y - py| < 5 / 2) ↔
    (if t = ObjectType.OBSTACLE then py < 7 / 5 ∧ py + 8 / 5 > 0
     else if t = ObjectType.MISSILE then
       py < 3 / 2 ∧ py + 8 / 5 > 1 / 2
     else if t = ObjectType.ALIEN then
       py < y + 1 / 2 ∧ py + 8 / 5 > y - 1 / 2
     else |y - py| < 5 / 2) := by
  cases t <;> simp [damageBand]

/-- C5: for an active non-portal entity, a tick registers a hit
(deactivates the entity) if and only if the entity's z interval from
the previous tick's z to this tick's z straddles the player's forward
position within the fixed tolerance 2, the lateral offset difference is
below 0.9, and the kind-specific vertical bands overlap: OBSTACLE the
low band [0, 1.4], MISSILE the elevated band [0.5, 1.5], ALIEN the band
objY ± 0.5 against the player band [y, y + 1.6], and GEM/LETTER the
band objY ± 2.5 around the entity's nominal height. -/
theorem claim_C5_hit (rd speed delta px py pz : ℚ) (o : GameObject)
    (hact : o.active = true) (hnp : o.type ≠ ObjectType.SHOP_PORTAL) :
    ((objectTick rd speed delta px py pz o).obj.active = false ↔
      ((o.posZ < pz + 2 ∧ (advanceObj speed delta o).posZ > pz - 2) ∧
       |o.posX - px| < 9 / 10 ∧
       (if o.type = ObjectType.OBSTACLE then py < 7 / 5 ∧ py + 8 / 5 > 0
        else if o.type = ObjectType.MISSILE then
          py < 3 / 2 ∧ py + 8 / 5 > 1 / 2
        else if o.type = ObjectType.ALIEN then
          py < o.posY + 1 / 2 ∧ py + 8 / 5 > o.posY - 1 / 2
        else |o.posY - py| < 5 / 2))) := by
  have hadv : (advanceObj speed delta o).active = true := hact
  have hty : (advanceObj speed delta o).type = o.type := rfl
  have hobj : (objectTick rd speed delta px py pz o).obj =
      (collideActive px py pz o.posZ (advanceObj speed delta o)).obj := by
    simp only [objectTick, collideObject, hadv, if_pos]
    split <;> rfl
  rw [hobj]
  simp only [collideActive, hty]
  rw [if_neg hnp]
  by_cases hz : o.posZ < pz + 2 ∧ (advanceObj speed delta o).posZ > pz - 2
  · rw [if_pos hz]
    rw [hitCheck_active_iff px py (advanceObj speed delta o) hadv]
    simp only [advance_posX, advance_posY, hty]
    rw [vertical_band_cases]
    tauto
  · rw [if_neg hz]
    simp [hadv, hz]

/-- Witness for C5: a hay-bale OBSTACLE straddling the player's z in
the same lane registers a hit; the same obstacle two lanes away does
not. -/
theorem claim_C5_hit_witness :
    ((objectTick 30 10 (1 / 100) 0 0 0
        ⟨ObjectType.OBSTACLE, 0, 7 / 10, -1 / 10, true, false, none,
          none⟩).obj.active = false ↔
      (((-1 / 10 : ℚ) < 0 + 2 ∧
        (advanceObj 10 (1 / 100)
          ⟨ObjectType.OBSTACLE, 0, 7 / 10, -1 / 10, true, false, none,
            none⟩).posZ > 0 - 2) ∧
       |(0 : ℚ) - 0| < 9 / 10 ∧
       ((0 : ℚ) < 7 / 5 ∧ (0 : ℚ) + 8 / 5 > 0))) := by
  have h := claim_C5_hit 30 10 (1 / 100) 0 0 0
    ⟨ObjectType.OBSTACLE, 0, 7 / 10, -1 / 10, true, false, none, none⟩
    rfl (by decide)
  simpa using h

/-- C1: a registered damage-source collision (playerHit outcome) always
deactivates the entity; the resulting `player-hit` dispatch is ignored
by the player while the damage-invulnerability flag or the immortality
skill is active (store untouched, lives unchanged), and otherwise
applies exactly one damage outcome (lives decremented once) and opens a
new invulnerability window. -/
theorem claim_C1_damage_split (rd speed delta px py pz now : ℚ)
    (o : GameObject) (inv : InvulnState) (isImm : Bool) (s : StoreState)
    (hdmg : (objectTick rd speed delta px py pz o).outcome =
      CollisionOutcome.playerHit) :
    (objectTick rd speed delta px py pz o).obj.active = false ∧
    (inv.isInvincible = true ∨ isImm = true →
      (checkHit isImm now inv s).2 = s ∧ (checkHit isImm now inv s).1 = inv) ∧
    (inv.isInvincible = false → isImm = false →
      (checkHit isImm now inv s).2.lives = s.lives - 1 ∧
      (checkHit isImm now inv s).1.isInvincible = true) := by
  refine ⟨tick_outcome_deactivates rd speed delta px py pz o
    (by rw [hdmg]; simp), ?_, ?_⟩
  · intro h
    rcases h with h | h <;> simp [checkHit, h]
  · intro h1 h2
    refine ⟨?_, ?_⟩
    · simp only [checkHit, h1, h2]
      simp [takeDamage]
      split <;> simp
    · simp [checkHit, h1, h2]

/-- Witness for C1: a straddling same-lane OBSTACLE hit, evaluated both
with the invulnerability window active (store unchanged) and without it
(one life lost, window opened). -/
theorem claim_C1_damage_split_witness :
    (objectTick 30 10 (1 / 100) 0 0 0
      ⟨ObjectType.OBSTACLE, 0, 7 / 10, -1 / 10, true, false, none,
        none⟩).obj.active = false ∧
    (checkHit true 3 ⟨false, 0⟩
      ⟨0, 3, 3, 1, [], 0, GStatus.PLAYING, false, true⟩).2 =
      ⟨0, 3, 3, 1, [], 0, GStatus.PLAYING, false, true⟩ ∧
    (checkHit false 3 ⟨false, 0⟩
      ⟨0, 3, 3, 1, [], 0, GStatus.PLAYING, false, false⟩).2.lives = 3 - 1 ∧
    (checkHit false 3 ⟨false, 0⟩
      ⟨0, 3, 3, 1, [], 0, GStatus.PLAYING, false, false⟩).1.isInvincible =
      true := by
  have hdmg : (objectTick 30 10 (1 / 100) 0 0 0
      ⟨ObjectType.OBSTACLE, 0, 7 / 10, -1 / 10, true, false, none,
        none⟩).outcome = CollisionOutcome.playerHit := by
    simp [objectTick, collideObject, collideActive, hitCheck, damageBand,
      advanceObj, moveAmount, safeDelta, MISSILE_SPEED, min_def]
    norm_num
  have h1 := claim_C1_damage_split 30 10 (1 / 100) 0 0 0 3
    ⟨ObjectType.OBSTACLE, 0, 7 / 10, -1 / 10, true, false, none, none⟩
    ⟨false, 0⟩ true ⟨0, 3, 3, 1, [], 0, GStatus.PLAYING, false, true⟩ hdmg
  have h2 := claim_C1_damage_split 30 10 (1 / 100) 0 0 0 3
    ⟨ObjectType.OBSTACLE, 0, 7 / 10, -1 / 10, true, false, none, none⟩
    ⟨false, 0⟩ false ⟨0, 3, 3, 1, [], 0, GStatus.PLAYING, false, false⟩ hdmg
  exact ⟨h1.1, (h1.2.1 (Or.inr rfl)).1, (h2.2.2 rfl rfl).1, (h2.2.2 rfl rfl).2⟩

/-- C6: an active LevelPortal crossed within the longitudinal-only
proximity produces the shop-entry outcome, is deactivated and removed;
over any input trace a stored object emits at most one shop-entry
event; and a deactivated portal never emits another, however often it
is re-approached. -/
theorem claim_C6_portal (rd speed delta px py pz : ℚ) (o : GameObject)
    (inputs : List (ℚ × ℚ × ℚ × ℚ × ℚ))
    (hact : o.active = true) (hty : o.type = ObjectType.SHOP_PORTAL)
    (hprox : |(advanceObj speed delta o).posZ - pz| < 2) :
    (objectTick rd speed delta px py pz o).outcome =
      CollisionOutcome.shopEntry ∧
    (objectTick rd speed delta px py pz o).obj.active = false ∧
    (objectTick rd speed delta px py pz o).keep = false ∧
    shopEvents rd (some o) inputs ≤ 1 ∧
    (∀ o' : GameObject, o'.active = false →
      shopEvents rd (some o') inputs = 0) := by
  have hadv : (advanceObj speed delta o).active = true := hact
  have htyp : (advanceObj speed delta o).type = ObjectType.SHOP_PORTAL := hty
  have hco : collideActive px py pz o.posZ (advanceObj speed delta o) =
      { outcome := CollisionOutcome.shopEntry,
        obj := { advanceObj speed delta o with active := false },
        keep := false } := by
    simp [collideActive, htyp, hprox]
  refine ⟨?_, ?_, ?_, shopEvents_le_one rd inputs o,
    fun o' h => shopEvents_inactive rd inputs o' h⟩ <;>
  · simp only [objectTick, collideObject, hadv, if_pos, hco]
    split <;> rfl

/-- Witness for C6: a portal one unit short of the player fires the
shop entry and is removed; an inactive portal at the same spot emits
nothing over a two-tick trace. -/
theorem claim_C6_portal_witness :
    (objectTick 30 0 0 0 0 0
      ⟨ObjectType.SHOP_PORTAL, 0, 0, -1, true, false, none,
        none⟩).outcome = CollisionOutcome.shopEntry ∧
    (objectTick 30 0 0 0 0 0
      ⟨ObjectType.SHOP_PORTAL, 0, 0, -1, true, false, none,
        none⟩).keep = false ∧
    shopEvents 30 (some ⟨ObjectType.SHOP_PORTAL, 0, 0, -1, true, false,
      none, none⟩) [(0, 0, 0, 0, 0), (0, 0, 0, 0, 0)] ≤ 1 ∧
    shopEvents 30 (some ⟨ObjectType.SHOP_PORTAL, 0, 0, -1, false, false,
      none, none⟩) [(0, 0, 0, 0, 0), (0, 0, 0, 0, 0)] = 0 := by
  have h := claim_C6_portal 30 0 0 0 0 0
    ⟨ObjectType.SHOP_PORTAL, 0, 0, -1, true, false, none, none⟩
    [(0, 0, 0, 0, 0), (0, 0, 0, 0, 0)] rfl rfl
    (by norm_num [advanceObj, moveAmount, safeDelta])
  exact ⟨h.1, h.2.2.1, h.2.2.2.1,
    h.2.2.2.2 ⟨ObjectType.SHOP_PORTAL, 0, 0, -1, false, false, none,
      none⟩ rfl⟩

/-- C10: when the letter threshold is crossed while every target-word
index is already collected, the spawn step appends a 50-point GEM (the
same value as an ordinary lone Collectible) and does not advance the
letter threshold — and this holds for every random draw, so each
subsequent spawn opportunity with the letter set still complete
deterministically spawns the fallback Collectible instead of entering
the probabilistic Obstacle/Enemy/Collectible branch; the ordinary
lone-Collectible branch spawns the same 50-point GEM. -/
theorem claim_C10_fallback (laneWidth spawnDistance : ℚ) (wordLen : ℕ)
    (collected : List ℕ) (level : ℤ) (laneCount : ℕ)
    (speed distanceTraveled nextLetterDistance : ℚ)
    (objs : List GameObject) (rnd : SpawnRandom)
    (hgate : furthestZ objs > -spawnDistance)
    (hdue : distanceTraveled ≥ nextLetterDistance)
    (hfull : ((List.range wordLen).filter
        (fun i => !(collected.contains i))) = []) :
    (spawnStep laneWidth spawnDistance wordLen collected level laneCount
        speed distanceTraveled nextLetterDistance objs rnd).1 =
      objs ++ [{ type := ObjectType.GEM,
                 posX := getRandomLane laneCount rnd.rLane * laneWidth,
                 posY := 6 / 5,
                 posZ := min (furthestZ objs - (12 + speed * (2 / 5)))
                   (-spawnDistance),
                 active := true, points := some 50 }] ∧
    (spawnStep laneWidth spawnDistance wordLen collected level laneCount
        speed distanceTraveled nextLetterDistance objs rnd).2 =
      nextLetterDistance ∧
    (∀ (dt2 nld2 : ℚ) (rnd2 : SpawnRandom), dt2 < nld2 →
      rnd2.rGate > 1 / 10 → ¬(rnd2.rObstacle > 1 / 5) →
      (spawnStep laneWidth spawnDistance wordLen collected level laneCount
          speed dt2 nld2 objs rnd2).1 =
        objs ++ [{ type := ObjectType.GEM,
                   posX := getRandomLane laneCount rnd2.rLane2 * laneWidth,
                   posY := 6 / 5,
                   posZ := min (furthestZ objs - (12 + speed * (2 / 5)))
                     (-spawnDistance),
                   active := true, points := some 50 }]) := by
  have hfull' : ((List.range wordLen).filter
      (fun i => !decide (i ∈ collected))) = [] := by simpa using hfull
  refine ⟨?_, ?_, ?_⟩
  · simp [spawnStep, hgate, hdue, hfull']
  · simp [spawnStep, hgate, hdue, hfull']
  · intro dt2 nld2 rnd2 hlt hg ho
    have hnd : ¬(dt2 ≥ nld2) := not_le.mpr hlt
    have hg' : (10 : ℚ)⁻¹ < rnd2.rGate := by simpa using hg
    have ho' : ¬((5 : ℚ)⁻¹ < rnd2.rObstacle) := by simpa using ho
    simp [spawnStep, hgate, hnd, hg', ho']

/-- Witness for C10 with a two-letter word fully collected at threshold
150: the fallback 50-point GEM spawns and the threshold stays 150; the
lone-Collectible branch spawns the same 50-point GEM. -/
theorem claim_C10_fallback_witness :
    (spawnStep 2 30 2 [0, 1] 1 5 10 150 150 [] ⟨0, 0, 0, 0, 0, 0, 0⟩).1 =
      [] ++ [{ type := ObjectType.GEM,
               posX := getRandomLane 5 (0 : ℚ) * 2, posY := 6 / 5,
               posZ := min (furthestZ [] - (12 + 10 * (2 / 5))) (-30),
               active := true, points := some 50 }] ∧
    (spawnStep 2 30 2 [0, 1] 1 5 10 150 150 [] ⟨0, 0, 0, 0, 0, 0, 0⟩).2 =
      150 ∧
    (spawnStep 2 30 2 [0, 1] 1 5 10 100 150 []
        ⟨0, 0, 1 / 2, 0, 0, 0, 0⟩).1 =
      [] ++ [{ type := ObjectType.GEM,
               posX := getRandomLane 5 (0 : ℚ) * 2, posY := 6 / 5,
               posZ := min (furthestZ [] - (12 + 10 * (2 / 5))) (-30),
               active := true, points := some 50 }] := by
  have h := claim_C10_fallback 2 30 2 [0, 1] 1 5 10 150 150 []
    ⟨0, 0, 0, 0, 0, 0, 0⟩ (by norm_num [furthestZ]) (by norm_num) (by decide)
  exact ⟨h.1, h.2.1,
    h.2.2 100 150 ⟨0, 0, 1 / 2, 0, 0, 0, 0⟩ (by norm_num) (by norm_num)
      (by norm_num)⟩

end TurkeyRun
